import Mathlib

/-!
Verification of the resume-screening pipeline (`ollama.py`).

Shallow embedding of the single-file Streamlit application: the availability
probe (`check_ollama_status`), the model-options population, the PDF
rasterizer (`convert_pdf_to_image`), the inference client
(`get_ollama_response`) and the submit handler at the bottom of the script.
Library calls (HTTP, PDF decoding, JPEG encoding) are modelled as explicit
function arguments or result values; base64 encoding is implemented for real.
-/

set_option autoImplicit false

namespace ResumeScreening

/-- A byte stream (each entry is one byte value). -/
abbrev Bytes := List Nat

/-- Outcome of one `requests.get`/`requests.post` call, as observed by the
Python `try` blocks: a response object, a `Timeout` exception, a
`RequestException`, or any other exception. -/
inductive HttpResult (α : Type) where
  | ok (response : α)
  | timeout
  | requestError (cause : String)
  | otherError (cause : String)
  deriving DecidableEq, Repr

/-- Response object of a GET on the tags endpoint: the HTTP status code and
the optional `models` array of the JSON body, reduced to the `name` field of
each entry (the only field the script reads). `none` models the JSON body
lacking a `models` key, so that `.get("models", [])` yields `[]`. -/
structure TagsResponse where
  status : Nat
  models : Option (List String)
  deriving DecidableEq, Repr

/-- Response object of a POST on the generate endpoint: the HTTP status code,
the optional `response` field of the JSON body, and the raw body text used in
the non-200 error message. -/
structure GenResponse where
  status : Nat
  responseField : Option String
  text : String
  deriving DecidableEq, Repr

/-- The JSON payload and timeout of the POST issued by `get_ollama_response`
(lines 42-51 of `ollama.py`): `{model, prompt, stream: False, images:
[image_base64]}` sent with `timeout=60`. -/
structure GenRequest where
  model : String
  prompt : String
  stream : Bool
  images : List String
  timeout : Nat
  deriving DecidableEq, Repr

/-- Embedding of `check_ollama_status` (lines 20-35), as a function of the
outcome of its single GET on `http://127.0.0.1:11434/api/tags`. -/
def check_ollama_status (r : HttpResult TagsResponse) : Bool × String :=
  match r with
  | .ok resp =>
      if resp.status = 200 then
        let models := resp.models.getD []
        if models.length > 0 then
          (true, "Ollama is running with " ++ toString models.length ++ " models available.")
        else
          (true, "Ollama is running but no models are available.")
      else
        (false, "Ollama responded with status code: " ++ toString resp.status)
  | .timeout => (false, "Connection to Ollama timed out. Is Ollama running?")
  | .requestError e => (false, "Error connecting to Ollama: " ++ e)
  | .otherError e => (false, "Unexpected error: " ++ e)

/-- The request object built by `get_ollama_response` (lines 42-47) together
with the timeout passed to `requests.post` on line 51, which is the literal
`60` whatever the slider value is. -/
def ollamaRequest (prompt image_base64 model : String) : GenRequest :=
  { model := model
    prompt := prompt
    stream := false
    images := [image_base64]
    timeout := 60 }

/-- The fixed message of the `Timeout` branch of `get_ollama_response`
(line 58). -/
def timeoutMsg : String :=
  "Request to Ollama timed out after 60 seconds. The model might be too large or busy."

/-- Embedding of `get_ollama_response` (lines 37-62): issue the POST described
by `ollamaRequest` through the network `net` and interpret the outcome. -/
def get_ollama_response (prompt image_base64 model : String)
    (net : GenRequest → HttpResult GenResponse) : Bool × String :=
  match net (ollamaRequest prompt image_base64 model) with
  | .ok resp =>
      if resp.status = 200 then
        (true, resp.responseField.getD "No response generated")
      else
        (false, "Error: " ++ toString resp.status ++ " - " ++ resp.text)
  | .timeout => (false, timeoutMsg)
  | .requestError e => (false, "Request error: " ++ e)
  | .otherError e => (false, "Unexpected error: " ++ e)

/-- Outcome of `pdf2image.convert_from_bytes` on line 69: either a list of
page images, or an exception with a message. -/
inductive DecodeResult (Page : Type) where
  | pages (ps : List Page)
  | exn (msg : String)

/-- The base64 alphabet (RFC 4648), as used by `base64.b64encode`. -/
def b64alphabet : List Char :=
  "ABCDEFGHIJKLMNOPQRSTUVWXYZabcdefghijklmnopqrstuvwxyz0123456789+/".data

/-- The base64 digit for a 6-bit value. -/
def b64char (n : Nat) : Char := b64alphabet.getD n 'A'

/-- Standard base64 encoding with padding, over byte lists
(`base64.b64encode(...).decode("utf-8")` on line 83). -/
def b64encode : Bytes → String
  | [] => ""
  | [a] =>
      String.mk [b64char (a / 4 % 64), b64char (a % 4 * 16), '=', '=']
  | [a, b] =>
      String.mk [b64char (a / 4 % 64), b64char (a % 4 * 16 + b / 16 % 16),
                 b64char (b % 16 * 4), '=']
  | a :: b :: c :: rest =>
      String.mk [b64char (a / 4 % 64), b64char (a % 4 * 16 + b / 16 % 16),
                 b64char (b % 16 * 4 + c / 64 % 4), b64char (c % 64)]
        ++ b64encode rest

/-- Embedding of `convert_pdf_to_image` (lines 64-88), parameterized by the
PDF decoder
(`pdf2image.convert_from_bytes`) and the JPEG encoder (`first_page.save`
followed by `getvalue`), both library calls. Returns the `(success, payload)`
pair of the Python function. -/
def convert_pdf_to_image {Page : Type} (decode : Bytes → DecodeResult Page)
    (jpegEncode : Page → Bytes) (uploaded_file : Option Bytes) : Bool × String :=
  match uploaded_file with
  | none => (false, "No file uploaded.")
  | some fileBytes =>
      match decode fileBytes with
      | .exn e => (false, "Error processing PDF: " ++ e)
      | .pages [] => (false, "Could not extract any images from the PDF.")
      | .pages (first_page :: _) => (true, b64encode (jpegEncode first_page))

/-- One insertion step of the dict comprehension on line 111:
`{model["name"]: model["name"] for model in models}`. A key already present
keeps its position (its value, being equal to the key, is unchanged). -/
def insertModel (d : List (String × String)) (n : String) : List (String × String) :=
  if d.any (fun p => p.1 = n) then d else d ++ [(n, n)]

/-- The dict comprehension on line 111 as an association list in insertion
order. -/
def dictOfModels (names : List String) : List (String × String) :=
  names.foldl insertModel []

/-- The `model_options` computation (lines 106-121), as a function of the
page-load probe verdict `ollama_status` and of the outcome of the second GET
on the tags endpoint (line 109), which is only issued when `ollama_status`
holds. The bare `except:` on line 118 catches every exception. -/
def model_options (ollama_status : Bool) (r : HttpResult TagsResponse) :
    List (String × String) :=
  if ollama_status then
    match r with
    | .ok resp =>
        if resp.status = 200 then
          let available_models := dictOfModels (resp.models.getD [])
          if available_models.length > 0 then available_models
          else [("Gemma 3", "gemma3")]
        else [("Gemma 3", "gemma3")]
    | _ => [("Gemma 3", "gemma3")]
  else [("Gemma 3", "gemma3")]

/-- Network events performed by the script: a GET on the tags endpoint, a call
into the PDF rasterizer, and the POST on the generate endpoint. -/
inductive Event where
  | getTags
  | rasterize (file : Bytes)
  | postGenerate (req : GenRequest)
  deriving DecidableEq, Repr

/-- The GET requests on the tags endpoint issued during one page load: the
probe inside `check_ollama_status` (line 22) always runs; the model-options
block (line 109) issues a second GET exactly when the probe verdict was
positive. -/
def pageLoadTagsEvents (probeResult : HttpResult TagsResponse) : List Event :=
  let st := check_ollama_status probeResult
  [Event.getTags] ++ (if st.1 then [Event.getTags] else [])

/-- Template `input_prompt1` (lines 136-145) with `{job_description}`
interpolated by `.format`. -/
def input_prompt1 (job_description : String) : String :=
  "\nYou are an experienced Technical Human Resource Manager. Please review the provided resume image against the job description below:\n\nJob Description:\n"
    ++ job_description
    ++ "\n\nYour task is to evaluate whether the candidate\x27s profile aligns with the role. \nHighlight the strengths and weaknesses of the applicant in relation to the specified job requirements.\nProvide a comprehensive, professional evaluation.\n"

/-- Template `input_prompt3` (lines 147-158) with `{job_description}`
interpolated by `.format`. -/
def input_prompt3 (job_description : String) : String :=
  "\nYou are an skilled ATS (Applicant Tracking System) scanner with a deep understanding of data science and ATS functionality.\nPlease evaluate the resume image against the job description below:\n\nJob Description:\n"
    ++ job_description
    ++ "\n\nYour response should have this format:\n1. Overall Match Percentage: X% (Give a specific percentage)\n2. Keywords Missing: List of important keywords from the job description that are missing from the resume\n3. Final Thoughts: Brief evaluation of the candidate\x27s fit for the position\n"

/-- The prompt selection on lines 185-188: `input_prompt1` when `submit1` is
truthy, otherwise `input_prompt3`. -/
def handlerPrompt (submit1 : Bool) (input_text : String) : String :=
  if submit1 then input_prompt1 input_text else input_prompt3 input_text

/-- Dict access `model_options[selected_model]` on line 191, over the
association list (the select box only offers keys of the dict, so the lookup
is total in the running app). -/
def dictGet (d : List (String × String)) (k : String) : String :=
  (d.lookup k).getD ""

/-- What the submit handler leaves on screen for the current action: an
`st.error` banner, an `st.warning` banner, or the rendered analysis result
(`st.markdown(response)` on line 204). -/
inductive Outcome where
  | error (s : String)
  | warning (s : String)
  | resultShown (s : String)
  deriving DecidableEq, Repr

/-- The submit handler (lines 161-210): precondition checks in order
(availability, file presence, text presence), then the rasterizer, then the
prompt selection and the inference call. Returns the list of rasterizer and
network events performed, and the banner or result left on screen (`none`
when no button was pressed). -/
def submitHandler {Page : Type} (ollama_status : Bool) (input_text : String)
    (uploaded_file : Option Bytes) (mo : List (String × String))
    (selected_model : String) (submit1 submit3 : Bool)
    (decode : Bytes → DecodeResult Page) (jpegEncode : Page → Bytes)
    (net : GenRequest → HttpResult GenResponse) : List Event × Option Outcome :=
  if submit1 || submit3 then
    if ollama_status = false then
      ([], some (.error "Cannot process request because Ollama is not accessible."))
    else
      match uploaded_file with
      | none => ([], some (.warning "Please upload a resume"))
      | some file =>
          if input_text = "" then
            ([], some (.warning "Please enter a job description"))
          else
            let conv := convert_pdf_to_image decode jpegEncode (some file)
            if conv.1 = false then
              ([Event.rasterize file], some (.error conv.2))
            else
              let image_base64 := conv.2
              let prompt := handlerPrompt submit1 input_text
              let model_id := dictGet mo selected_model
              let req := ollamaRequest prompt image_base64 model_id
              let res := get_ollama_response prompt image_base64 model_id net
              if res.1 then
                ([Event.rasterize file, Event.postGenerate req],
                 some (.resultShown res.2))
              else
                ([Event.rasterize file, Event.postGenerate req],
                 some (.error ("Error: " ++ res.2)))
  else ([], none)

/-! Helper lemmas shared by several claims. -/

/-- String concatenation acts as list concatenation on the character data. -/
theorem data_append (a b : String) : (a ++ b).data = a.data ++ b.data := by
  cases a; cases b; rfl

/-- Two strings differing at some character position are distinct. -/
theorem ne_of_data_get (a b : String) (i : Nat) (c d : Char)
    (ha : a.data.get? i = some c) (hb : b.data.get? i = some d) (hcd : c ≠ d) :
    a ≠ b := by
  intro h
  rw [h] at ha
  rw [ha] at hb
  exact hcd (Option.some.inj hb)

/-- The rasterizer on a document that decodes to at least one page: success
with the base64 encoding of the JPEG of the first page. -/
theorem convert_pages_eq {Page : Type} (decode : Bytes → DecodeResult Page)
    (jpegEncode : Page → Bytes) (file : Bytes) (p : Page) (rest : List Page)
    (hdec : decode file = .pages (p :: rest)) :
    convert_pdf_to_image decode jpegEncode (some file) =
      (true, b64encode (jpegEncode p)) := by
  simp [convert_pdf_to_image, hdec]

/-- C5: For every valid document that decodes to one or more pages, the
rasterizer derives exactly one image, taken from page 1 — the result depends
only on the first page and not on the rest — and returns its base64
encoding. -/
theorem rasterizer_first_page_only {Page : Type}
    (decode : Bytes → DecodeResult Page) (jpegEncode : Page → Bytes)
    (file : Bytes) (p : Page) (rest : List Page)
    (hdec : decode file = .pages (p :: rest)) :
    convert_pdf_to_image decode jpegEncode (some file) =
      (true, b64encode (jpegEncode p)) :=
  convert_pages_eq decode jpegEncode file p rest hdec

/-- Witness for C5: a three-page document yields the base64 of page 1 only. -/
theorem rasterizer_first_page_only_witness :
    convert_pdf_to_image (fun _ => DecodeResult.pages [7, 8, 9])
      (fun p => [p]) (some [0]) = (true, "Bw==") := by
  have h := @rasterizer_first_page_only Nat
    (fun _ => DecodeResult.pages [7, 8, 9]) (fun p => [p]) [0] 7 [8, 9] rfl
  exact h.trans (by decide)

/-- C6: If the tags response is HTTP 200 with an empty (or absent) `models`
array, or the GET fails in any way, the selectable model set falls back to
exactly the one hardcoded default identifier. -/
theorem model_fallback_default (r : HttpResult TagsResponse)
    (h : (∃ resp, r = .ok resp ∧ resp.status = 200 ∧ resp.models.getD [] = []) ∨
         r = .timeout ∨ (∃ e, r = .requestError e) ∨ (∃ e, r = .otherError e)) :
    model_options true r = [("Gemma 3", "gemma3")] := by
  rcases h with ⟨resp, hr, h200, hempty⟩ | hr | ⟨e, hr⟩ | ⟨e, hr⟩
  · subst hr; simp [model_options, h200, hempty, dictOfModels]
  · subst hr; simp [model_options]
  · subst hr; simp [model_options]
  · subst hr; simp [model_options]

/-- Witness for C6: a timed-out GET yields the single default model entry. -/
theorem model_fallback_default_witness :
    model_options true HttpResult.timeout = [("Gemma 3", "gemma3")] :=
  model_fallback_default HttpResult.timeout (Or.inr (Or.inl rfl))

/-- C2 counterexample: when the probe reports Ollama reachable, the page load
issues two GET requests to the tags endpoint (the probe itself and the
model-options population), not exactly one. -/
theorem pageLoad_two_tags_gets :
    (pageLoadTagsEvents (.ok ⟨200, some ["llama3"]⟩)).count Event.getTags = 2 := by
  decide

/-- C2 amended: the probe function itself issues a single GET with no
retries, but the page load as a whole issues one GET to the tags endpoint
when the probe verdict is negative and two (the second populating the model
options) when it is positive. -/
theorem pageLoad_tags_get_count (r : HttpResult TagsResponse) :
    (pageLoadTagsEvents r).count Event.getTags =
      if (check_ollama_status r).1 then 2 else 1 := by
  unfold pageLoadTagsEvents
  cases h : (check_ollama_status r).1 <;> simp [h, List.count_cons]

/-- C1: the timeout slider is never wired into the inference client. For
every slider value `t` in the range [30, 300], the POST issued by
`get_ollama_response` carries the fixed timeout 60 — not `t` — and when the
call times out the error message is the fixed string naming 60 seconds, so
the claim fails at every `t ≠ 60` (e.g. `t = 300`). -/
theorem timeout_slider_ignored (t : Nat) (_ht : 30 ≤ t ∧ t ≤ 300)
    (prompt img model : String) (net : GenRequest → HttpResult GenResponse)
    (hnet : net (ollamaRequest prompt img model) = .timeout) :
    (ollamaRequest prompt img model).timeout = 60 ∧
      get_ollama_response prompt img model net = (false, timeoutMsg) ∧
      timeoutMsg =
        "Request to Ollama timed out after 60 seconds. The model might be too large or busy." := by
  refine ⟨rfl, ?_, rfl⟩
  unfold get_ollama_response
  rw [hnet]

/-- Witness for C1: at slider value 300 the request still carries timeout 60
and the timeout message still names 60 seconds. -/
theorem timeout_slider_ignored_witness :
    (ollamaRequest "p" "i" "m").timeout = 60 ∧
      get_ollama_response "p" "i" "m" (fun _ => HttpResult.timeout) =
        (false, timeoutMsg) ∧
      timeoutMsg =
        "Request to Ollama timed out after 60 seconds. The model might be too large or busy." :=
  timeout_slider_ignored 300 (by decide) "p" "i" "m" (fun _ => HttpResult.timeout) rfl

/-- The submit handler on a fully valid submission (button pressed, probe
positive, file present, text present, document decodes to at least one page):
it rasterizes, posts the generate request, and shows the result or the error
according to the inference outcome. -/
theorem submitHandler_valid {Page : Type} (input_text : String) (file : Bytes)
    (mo : List (String × String)) (sm : String) (s1 s3 : Bool)
    (decode : Bytes → DecodeResult Page) (jpegEncode : Page → Bytes)
    (net : GenRequest → HttpResult GenResponse) (p : Page) (rest : List Page)
    (hpress : (s1 || s3) = true) (htext : input_text ≠ "")
    (hdec : decode file = .pages (p :: rest)) :
    submitHandler true input_text (some file) mo sm s1 s3 decode jpegEncode net =
      ([Event.rasterize file,
        Event.postGenerate (ollamaRequest (handlerPrompt s1 input_text)
          (b64encode (jpegEncode p)) (dictGet mo sm))],
       some (if (get_ollama_response (handlerPrompt s1 input_text)
                  (b64encode (jpegEncode p)) (dictGet mo sm) net).1 then
               Outcome.resultShown (get_ollama_response (handlerPrompt s1 input_text)
                 (b64encode (jpegEncode p)) (dictGet mo sm) net).2
             else
               Outcome.error ("Error: " ++ (get_ollama_response (handlerPrompt s1 input_text)
                 (b64encode (jpegEncode p)) (dictGet mo sm) net).2))) := by
  have hconv := convert_pages_eq decode jpegEncode file p rest hdec
  simp only [submitHandler, hpress, if_true, hconv, htext]
  simp [htext]
  split <;> rfl

/-- C3: For every state in which the job description is empty or no document
is uploaded, pressing either action trigger performs no rasterization and no
network request (the event trace is empty), and the banner shown is the
specific message of the first failed precondition, checked in the order
availability, document presence, text presence. -/
theorem missing_inputs_block {Page : Type} (ollama_status : Bool)
    (input_text : String) (uploaded_file : Option Bytes)
    (mo : List (String × String)) (sm : String) (s1 s3 : Bool)
    (decode : Bytes → DecodeResult Page) (jpegEncode : Page → Bytes)
    (net : GenRequest → HttpResult GenResponse)
    (hpress : s1 = true ∨ s3 = true)
    (hmiss : uploaded_file = none ∨ input_text = "") :
    submitHandler ollama_status input_text uploaded_file mo sm s1 s3 decode jpegEncode net =
      ([], some (if ollama_status = false then
                   Outcome.error "Cannot process request because Ollama is not accessible."
                 else if uploaded_file = none then
                   Outcome.warning "Please upload a resume"
                 else
                   Outcome.warning "Please enter a job description")) := by
  have hor : (s1 || s3) = true := by rcases hpress with h | h <;> simp [h]
  cases ollama_status with
  | false => simp [submitHandler, hor]
  | true =>
      cases uploaded_file with
      | none => simp [submitHandler, hor]
      | some file =>
          rcases hmiss with h | h
          · exact absurd h (by simp)
          · simp [submitHandler, hor, h]

/-- Witness for C3: with the probe positive, a file absent and a non-empty
job description, pressing the first trigger yields no events and the
upload warning. -/
theorem missing_inputs_block_witness :
    @submitHandler Nat true "jd" none [] "" true false
      (fun _ => DecodeResult.pages [1]) (fun p => [p]) (fun _ => HttpResult.timeout) =
      ([], some (Outcome.warning "Please upload a resume")) := by
  have h := @missing_inputs_block Nat true "jd" none [] "" true false
    (fun _ => DecodeResult.pages [1]) (fun p => [p]) (fun _ => HttpResult.timeout)
    (Or.inl rfl) (Or.inl rfl)
  exact h.trans (by decide)

/-- C4: Whenever the availability probe reported unreachable, pressing either
action trigger immediately shows the fixed "Cannot process request" error,
and neither the rasterizer nor any network call runs (empty event trace). -/
theorem unreachable_blocks_submission {Page : Type} (input_text : String)
    (uploaded_file : Option Bytes) (mo : List (String × String)) (sm : String)
    (s1 s3 : Bool) (decode : Bytes → DecodeResult Page)
    (jpegEncode : Page → Bytes) (net : GenRequest → HttpResult GenResponse)
    (hpress : s1 = true ∨ s3 = true) :
    submitHandler false input_text uploaded_file mo sm s1 s3 decode jpegEncode net =
      ([], some (Outcome.error "Cannot process request because Ollama is not accessible.")) := by
  have hor : (s1 || s3) = true := by rcases hpress with h | h <;> simp [h]
  simp [submitHandler, hor]

/-- Witness for C4: probe negative, both inputs present, second trigger
pressed: the fixed error is shown and nothing runs. -/
theorem unreachable_blocks_submission_witness :
    @submitHandler Nat false "jd" (some [1, 2]) [] "" false true
      (fun _ => DecodeResult.pages [1]) (fun p => [p]) (fun _ => HttpResult.timeout) =
      ([], some (Outcome.error "Cannot process request because Ollama is not accessible.")) :=
  unreachable_blocks_submission "jd" (some [1, 2]) [] "" false true
    (fun _ => DecodeResult.pages [1]) (fun p => [p]) (fun _ => HttpResult.timeout)
    (Or.inr rfl)

/-- C7: On a valid submission whose inference POST returns HTTP 200, the
result shown is exactly the `response` field of the JSON body when present —
no transformation — and the fixed placeholder string when the field is
absent. -/
theorem response_displayed_verbatim {Page : Type} (input_text : String)
    (file : Bytes) (mo : List (String × String)) (sm : String) (s1 s3 : Bool)
    (decode : Bytes → DecodeResult Page) (jpegEncode : Page → Bytes)
    (net : GenRequest → HttpResult GenResponse) (p : Page) (rest : List Page)
    (r : GenResponse)
    (hpress : s1 = true ∨ s3 = true) (htext : input_text ≠ "")
    (hdec : decode file = DecodeResult.pages (p :: rest))
    (hnet : net (ollamaRequest (handlerPrompt s1 input_text)
      (b64encode (jpegEncode p)) (dictGet mo sm)) = .ok r)
    (h200 : r.status = 200) :
    (submitHandler true input_text (some file) mo sm s1 s3 decode jpegEncode net).2 =
      some (Outcome.resultShown (r.responseField.getD "No response generated")) := by
  have hor : (s1 || s3) = true := by rcases hpress with h | h <;> simp [h]
  have hres : get_ollama_response (handlerPrompt s1 input_text)
      (b64encode (jpegEncode p)) (dictGet mo sm) net =
      (true, r.responseField.getD "No response generated") := by
    simp [get_ollama_response, hnet, h200]
  rw [submitHandler_valid input_text file mo sm s1 s3 decode jpegEncode net p rest
    hor htext hdec]
  simp [hres]

/-- Witness for C7: a 200 response with `response` field `"hello"` is shown
verbatim. -/
theorem response_displayed_verbatim_witness :
    (@submitHandler Nat true "jd" (some [1]) [("Gemma 3", "gemma3")]
      "Gemma 3" true false (fun _ => DecodeResult.pages [5]) (fun p => [p])
      (fun _ => HttpResult.ok ⟨200, some "hello", ""⟩)).2 =
      some (Outcome.resultShown "hello") :=
  response_displayed_verbatim "jd" [1] [("Gemma 3", "gemma3")] "Gemma 3" true false
    (fun _ => DecodeResult.pages [5]) (fun p => [p])
    (fun _ => HttpResult.ok ⟨200, some "hello", ""⟩) 5 [] ⟨200, some "hello", ""⟩
    (Or.inl rfl) (by decide) rfl rfl rfl

/-- C8: The inference client maps the three failure classes to three
pairwise-distinct error results: a non-200 status yields an error carrying
the status code and body text, a timeout yields the fixed timeout error, and
a transport failure yields a generic request error carrying the cause; the
three message shapes are distinct for all status codes, bodies and causes. -/
theorem inference_error_partition (prompt img model : String) :
    (∀ (net : GenRequest → HttpResult GenResponse) (resp : GenResponse),
        net (ollamaRequest prompt img model) = .ok resp → resp.status ≠ 200 →
        get_ollama_response prompt img model net =
          (false, "Error: " ++ toString resp.status ++ " - " ++ resp.text)) ∧
    (∀ net, net (ollamaRequest prompt img model) = .timeout →
        get_ollama_response prompt img model net = (false, timeoutMsg)) ∧
    (∀ net e, net (ollamaRequest prompt img model) = .requestError e →
        get_ollama_response prompt img model net = (false, "Request error: " ++ e)) ∧
    (∀ (code : Nat) (t e : String),
        ("Error: " ++ toString code ++ " - " ++ t) ≠ timeoutMsg ∧
        ("Error: " ++ toString code ++ " - " ++ t) ≠ ("Request error: " ++ e) ∧
        timeoutMsg ≠ ("Request error: " ++ e)) := by
  refine ⟨?_, ?_, ?_, ?_⟩
  · intro net resp hnet h200
    simp [get_ollama_response, hnet, h200]
  · intro net hnet
    simp [get_ollama_response, hnet]
  · intro net e hnet
    simp [get_ollama_response, hnet]
  · intro code t e
    refine ⟨?_, ?_, ?_⟩
    · apply ne_of_data_get _ _ 0 'E' 'R'
      · rw [data_append, data_append, data_append]; rfl
      · rfl
      · decide
    · apply ne_of_data_get _ _ 0 'E' 'R'
      · rw [data_append, data_append, data_append]; rfl
      · rw [data_append]; rfl
      · decide
    · apply ne_of_data_get _ _ 8 't' 'e'
      · rfl
      · rw [data_append]; rfl
      · decide

/-- Witness for C8: each failure class at a concrete input yields its
distinct message. -/
theorem inference_error_partition_witness :
    get_ollama_response "p" "i" "m" (fun _ => HttpResult.ok ⟨500, none, "boom"⟩) =
      (false, "Error: 500 - boom") ∧
    get_ollama_response "p" "i" "m" (fun _ => HttpResult.timeout) = (false, timeoutMsg) ∧
    get_ollama_response "p" "i" "m" (fun _ => HttpResult.requestError "refused") =
      (false, "Request error: refused") := by
  refine ⟨?_, ?_, ?_⟩
  · have h := (inference_error_partition "p" "i" "m").1
      (fun _ => HttpResult.ok ⟨500, none, "boom"⟩) ⟨500, none, "boom"⟩ rfl (by decide)
    exact h.trans (by decide)
  · exact (inference_error_partition "p" "i" "m").2.1 (fun _ => HttpResult.timeout) rfl
  · have h := (inference_error_partition "p" "i" "m").2.2.1
      (fun _ => HttpResult.requestError "refused") "refused" rfl
    exact h.trans (by decide)

/-- C9: On a pressed trigger with both inputs present, a document that fails
to decode or decodes to zero pages makes the rasterizer return a failure with
a decode-error message, the handler shows exactly that error, and no
inference POST is issued (the trace holds the rasterize event only). -/
theorem decode_failure_blocks_inference {Page : Type} (input_text : String)
    (file : Bytes) (mo : List (String × String)) (sm : String) (s1 s3 : Bool)
    (decode : Bytes → DecodeResult Page) (jpegEncode : Page → Bytes)
    (net : GenRequest → HttpResult GenResponse) (e : String)
    (hpress : s1 = true ∨ s3 = true) (htext : input_text ≠ "")
    (hdec : decode file = DecodeResult.exn e ∨ decode file = DecodeResult.pages []) :
    submitHandler true input_text (some file) mo sm s1 s3 decode jpegEncode net =
      ([Event.rasterize file],
       some (Outcome.error (convert_pdf_to_image decode jpegEncode (some file)).2)) ∧
    (convert_pdf_to_image decode jpegEncode (some file)).1 = false ∧
    ((convert_pdf_to_image decode jpegEncode (some file)).2 = "Error processing PDF: " ++ e ∨
     (convert_pdf_to_image decode jpegEncode (some file)).2 =
       "Could not extract any images from the PDF.") := by
  have hor : (s1 || s3) = true := by rcases hpress with h | h <;> simp [h]
  rcases hdec with h | h
  · have hconv : convert_pdf_to_image decode jpegEncode (some file) =
        (false, "Error processing PDF: " ++ e) := by
      simp [convert_pdf_to_image, h]
    refine ⟨?_, by rw [hconv], Or.inl (by rw [hconv])⟩
    simp [submitHandler, hor, htext, hconv]
  · have hconv : convert_pdf_to_image decode jpegEncode (some file) =
        (false, "Could not extract any images from the PDF.") := by
      simp [convert_pdf_to_image, h]
    refine ⟨?_, by rw [hconv], Or.inr (by rw [hconv])⟩
    simp [submitHandler, hor, htext, hconv]

/-- Witness for C9: a decode exception yields the rasterize-only trace and
the decode error banner. -/
theorem decode_failure_blocks_inference_witness :
    @submitHandler Nat true "jd" (some [9]) [] "" true false
      (fun _ => DecodeResult.exn "bad xref") (fun p => [p])
      (fun _ => HttpResult.timeout) =
      ([Event.rasterize [9]], some (Outcome.error "Error processing PDF: bad xref")) := by
  have h := (@decode_failure_blocks_inference Nat "jd" [9] [] "" true false
    (fun _ => DecodeResult.exn "bad xref") (fun p => [p]) (fun _ => HttpResult.timeout)
    "bad xref" (Or.inl rfl) (by decide) (Or.inl rfl)).1
  exact h.trans (by decide)

/-- C10: When both action triggers are active in the same submission cycle on
otherwise valid inputs, the prompt of the POST sent to the inference client
is the first template (the HR-manager evaluation), not the percentage-match
template. -/
theorem both_triggers_use_first_prompt {Page : Type} (input_text : String)
    (file : Bytes) (mo : List (String × String)) (sm : String)
    (decode : Bytes → DecodeResult Page) (jpegEncode : Page → Bytes)
    (net : GenRequest → HttpResult GenResponse) (p : Page) (rest : List Page)
    (htext : input_text ≠ "")
    (hdec : decode file = DecodeResult.pages (p :: rest)) :
    (submitHandler true input_text (some file) mo sm true true decode jpegEncode net).1 =
      [Event.rasterize file,
       Event.postGenerate (ollamaRequest (input_prompt1 input_text)
         (b64encode (jpegEncode p)) (dictGet mo sm))] := by
  have h := submitHandler_valid input_text file mo sm true true decode jpegEncode net
    p rest rfl htext hdec
  rw [h]
  simp [handlerPrompt]

set_option maxRecDepth 8192 in
/-- Witness for C10: with both buttons pressed the posted prompt is the first
template. -/
theorem both_triggers_use_first_prompt_witness :
    (@submitHandler Nat true "jd" (some [3]) [] "sel" true true
      (fun _ => DecodeResult.pages [5]) (fun p => [p])
      (fun _ => HttpResult.timeout)).1 =
      [Event.rasterize [3],
       Event.postGenerate (ollamaRequest (input_prompt1 "jd") "BQ==" "")] := by
  have h := @both_triggers_use_first_prompt Nat "jd" [3] [] "sel"
    (fun _ => DecodeResult.pages [5]) (fun p => [p]) (fun _ => HttpResult.timeout)
    5 [] (by decide) rfl
  exact h.trans (by decide)

end ResumeScreening
